import Mathlib

/-
  Verification of the deferred-rendering demo (GLDeferredRenderer.js and
  companions) against its natural-language specification.

  Shallow embedding conventions:
  * JS numbers are modelled as rationals (ℚ); the literals 0.1, 0.001, 0.2
    become 1/10, 1/1000, 1/5.
  * JS arrays of numbers become List ℚ; 3-component vectors become Vec3.
  * JS object dictionaries (string-keyed, insertion-ordered) become
    insertion-ordered association lists, with jsSet / jsGet modelling
    property write / read.
  * Mutating methods become functions from the old record to the new record;
    GPU calls are modelled as a trace of GLCmd values.
-/

/-- A 3-component vector, as the JS code's 3-element arrays / glMatrix vec3. -/
abbrev Vec3 := ℚ × ℚ × ℚ

/-- Spread of a 3-component vector into a flat array, as JS `...v`. -/
def vec3ToList (v : Vec3) : List ℚ := [v.1, v.2.1, v.2.2]

/-- Source: `const clamp = (val, min, max) => Math.min(Math.max(val, min), max)`. -/
def clamp (val lo hi : ℚ) : ℚ := min (max val lo) hi

/-- Insertion-ordered string-keyed dictionary write, as JS `obj[k] = v`:
overwrites in place if the key exists, otherwise appends a new key. -/
def jsSet {α : Type} (m : List (String × α)) (k : String) (v : α) : List (String × α) :=
  if m.any (fun p => p.1 = k) then
    m.map (fun p => if p.1 = k then (k, v) else p)
  else
    m ++ [(k, v)]

/-- Dictionary read, as JS `obj[k]` (`none` models `undefined`). -/
def jsGet {α : Type} (m : List (String × α)) (k : String) : Option α :=
  (m.find? (fun p => p.1 = k)).map (fun p => p.2)

/-- Source: class Light — point light with color (0–255 channels), position,
attenuation `[constant, linear, quadratic]` and a visibility flag.
Constructor defaults: position `[0,0,0]`, attenuation `[0.05, 0.02, 0.01]`,
visible `true`. -/
structure Light where
  color : Vec3
  position : Vec3
  attenuation : Vec3
  visible : Bool

/-- Source: `Light.addToArray(arr)` — if visible, pushes
`...position, ...color, ...attenuation` onto the array and returns 1,
otherwise leaves the array alone and returns 0.  Modelled as returning the
new array together with the 0/1 count. -/
def Light.addToArray (l : Light) (arr : List ℚ) : List ℚ × ℕ :=
  if l.visible then
    (arr ++ vec3ToList l.position ++ vec3ToList l.color ++ vec3ToList l.attenuation, 1)
  else
    (arr, 0)

/-- One iteration of the loop `for (let l in lights) count += lights[l].addToArray(lightArr)`
in `Renderer.renderScene`, threading the array and the running count. -/
def addLightStep (p : List ℚ × ℕ) (l : Light) : List ℚ × ℕ :=
  let q := l.addToArray p.1
  (q.1, p.2 + q.2)

/-- Source: the light-array construction in `Renderer.renderScene`:
`var lightArr = [0, Math.pow(att.lightAmbience * 0.1 * 4, 2), (1 - att.lightIntensity) * 0.1 + 0.001];`
then the addToArray loop, then `lightArr[0] = count * 3`. -/
def buildLightArray (lights : List Light) (lightAmbience lightIntensity : ℚ) : List ℚ :=
  let lightArr : List ℚ :=
    [0, (lightAmbience * (1/10) * 4) ^ 2, (1 - lightIntensity) * (1/10) + 1/1000]
  let r := lights.foldl addLightStep (lightArr, 0)
  r.1.set 0 ((r.2 : ℚ) * 3)

/-- The nine numbers a visible light contributes: position, color, attenuation. -/
def lightEntries (l : Light) : List ℚ :=
  vec3ToList l.position ++ vec3ToList l.color ++ vec3ToList l.attenuation

lemma addLight_fold_eq (lights : List Light) (arr : List ℚ) (c : ℕ) :
    lights.foldl addLightStep (arr, c) =
      (arr ++ (lights.filter (fun l => l.visible)).flatMap lightEntries,
       c + (lights.filter (fun l => l.visible)).length) := by
  induction lights generalizing arr c with
  | nil => simp
  | cons l ls ih =>
    by_cases h : l.visible
    · simp [addLightStep, Light.addToArray, h, ih, lightEntries, List.append_assoc,
        List.flatMap_cons]
      omega
    · simp [addLightStep, Light.addToArray, h, ih]

lemma buildLightArray_eq (lights : List Light) (a i : ℚ) :
    buildLightArray lights a i =
      (((lights.filter (fun l => l.visible)).length : ℚ) * 3)
        :: (a * (1/10) * 4) ^ 2
        :: ((1 - i) * (1/10) + 1/1000)
        :: (lights.filter (fun l => l.visible)).flatMap lightEntries := by
  simp [buildLightArray, addLight_fold_eq, List.set]

/-- Claim C1: in every frame's light serialization, element 0's first
component equals 3 times the number of lights with `visible = true`;
invisible lights contribute nothing and do not affect that count; each
visible light appends exactly its position, color and attenuation triples in
that order, densely, so the array length is `3 + 9 × (number of visible lights)`. -/
theorem light_serialization_dense (lights : List Light) (a i : ℚ) :
    buildLightArray lights a i =
      (3 * ((lights.filter (fun l => l.visible)).length : ℚ))
        :: (a * (1/10) * 4) ^ 2
        :: ((1 - i) * (1/10) + 1/1000)
        :: (lights.filter (fun l => l.visible)).flatMap lightEntries
    ∧ (buildLightArray lights a i).length =
        3 + 9 * (lights.filter (fun l => l.visible)).length := by
  constructor
  · rw [buildLightArray_eq]; ring_nf
  · rw [buildLightArray_eq]
    simp only [List.length_cons, List.length_flatMap]
    induction (List.filter (fun l => l.visible) lights) with
    | nil => simp
    | cons x xs ih =>
      simp only [List.map_cons, List.sum_cons, List.length_cons] at ih ⊢
      simp only [Function.comp_apply, lightEntries, vec3ToList] at ih ⊢
      simp at ih ⊢
      omega

/-- Claim C7: the second and third components of element 0 of the per-frame
light array equal `(lightAmbience * 0.1 * 4)^2` and
`(1 - lightIntensity) * 0.1 + 0.001` respectively, for every value of the
`lightAmbience` and `lightIntensity` attributes (and every light list). -/
theorem light_array_tuning_terms (lights : List Light) (a i : ℚ) :
    (buildLightArray lights a i).get? 1 = some ((a * (1/10) * 4) ^ 2)
    ∧ (buildLightArray lights a i).get? 2 = some ((1 - i) * (1/10) + 1/1000) := by
  rw [buildLightArray_eq]
  constructor <;> rfl

/-- Source: class Material — an insertion-ordered dictionary from texture
role name to texture; the constructor installs `albedo`, `normal`,
`material` in that order.  Texture objects are identified here by name. -/
structure Material where
  textures : List (String × String)

/-- Source: the Material constructor `new Material(albedoTex, normalTex, materialTex)`. -/
def Material.mk3 (albedoTex normalTex materialTex : String) : Material :=
  ⟨[("albedo", albedoTex), ("normal", normalTex), ("material", materialTex)]⟩

/-- Source: `Material.addTexture(tex, name)` — `this.textures[name] = tex`. -/
def Material.addTexture (m : Material) (tex name : String) : Material :=
  ⟨jsSet m.textures name tex⟩

/-- Source: `Renderer.init_gBuffer` — the G-Buffer material groups the four
buffer textures; after construction, `base` and `position` are both added
pointing at the position buffer texture. -/
def gBufferMaterial : Material :=
  ((Material.mk3 "gbuff_albedo" "gbuff_normal" "gbuff_material").addTexture
      "gbuff_position" "base").addTexture "gbuff_position" "position"

/-- One debug-overlay draw record: the dictionary key iterated, the texture
drawn (assigned to the quad material's `base` slot), and the quad's centre
position and scale as set by `setPosition` / `setScale`. -/
structure DebugQuad where
  texKey : String
  tex : String
  x : ℚ
  y : ℚ
  w : ℚ
  h : ℚ
  deriving DecidableEq

/-- Source: the `for (const t in tex)` loop of the debug overlay in
`Renderer.renderScene`: skip the key `base`; otherwise set the quad's base
texture to `tex[t]`, place it at `(dx, dy)`, draw, and step `dy -= height`. -/
def overlayQuads (texs : List (String × String)) (dx dy width height : ℚ) : List DebugQuad :=
  match texs with
  | [] => []
  | (t, v) :: rest =>
    if t = "base" then overlayQuads rest dx dy width height
    else ⟨t, v, dx, dy, width, height⟩ :: overlayQuads rest dx (dy - height) width height

/-- Source: the debug-overlay block of `Renderer.renderScene` (guarded by
`att.drawGbuffer`): `height = winH/4`, `width = height*(winW/winH)`,
`dx = (winW / -2) + width/2`, `dy = winH/2 - height/2`, then the loop over the
G-Buffer material's textures. -/
def debugOverlay (winW winH : ℚ) : List DebugQuad :=
  let height := winH / 4
  let width := height * (winW / winH)
  overlayQuads gBufferMaterial.textures (winW / (-2) + width / 2) (winH / 2 - height / 2)
    width height

lemma gBufferMaterial_textures_eq :
    gBufferMaterial.textures =
      [("albedo", "gbuff_albedo"), ("normal", "gbuff_normal"),
       ("material", "gbuff_material"), ("base", "gbuff_position"),
       ("position", "gbuff_position")] := by
  rfl

/-- Claim C2 counterexample: at a concrete 800×600 viewport, the debug
overlay does not draw the channels top-to-bottom in the order
position, normal, material claimed by the spec: it draws four quads, in the
dictionary insertion order albedo, normal, material, position. -/
theorem debug_overlay_order_counterexample :
    (debugOverlay 800 600).map (fun q => q.texKey) ≠ ["position", "normal", "material"]
    ∧ (debugOverlay 800 600).map (fun q => q.texKey)
        = ["albedo", "normal", "material", "position"] := by
  constructor
  · intro h
    rw [show debugOverlay 800 600 = debugOverlay 800 600 from rfl] at h
    simp [debugOverlay, overlayQuads, gBufferMaterial_textures_eq] at h
  · simp [debugOverlay, overlayQuads, gBufferMaterial_textures_eq]

/-- Claim C2 as amended: when the debug overlay is enabled, renderScene
draws one quad per entry of the G-Buffer material's texture dictionary
except the `base` entry (excluded by name match), i.e. four quads in
dictionary insertion order — albedo, normal, material, position — each
scaled to 1/4 of the viewport height with aspect-correct width, at the left
edge, each successive quad exactly one quad-height below the previous
(no gaps, no overlap). -/
theorem debug_overlay_layout (winW winH : ℚ) :
    debugOverlay winW winH =
      [⟨"albedo", "gbuff_albedo",
          winW / (-2) + (winH / 4 * (winW / winH)) / 2, winH / 2 - (winH / 4) / 2,
          winH / 4 * (winW / winH), winH / 4⟩,
       ⟨"normal", "gbuff_normal",
          winW / (-2) + (winH / 4 * (winW / winH)) / 2,
          winH / 2 - (winH / 4) / 2 - winH / 4,
          winH / 4 * (winW / winH), winH / 4⟩,
       ⟨"material", "gbuff_material",
          winW / (-2) + (winH / 4 * (winW / winH)) / 2,
          winH / 2 - (winH / 4) / 2 - winH / 4 - winH / 4,
          winH / 4 * (winW / winH), winH / 4⟩,
       ⟨"position", "gbuff_position",
          winW / (-2) + (winH / 4 * (winW / winH)) / 2,
          winH / 2 - (winH / 4) / 2 - winH / 4 - winH / 4 - winH / 4,
          winH / 4 * (winW / winH), winH / 4⟩] := by
  simp [debugOverlay, overlayQuads, gBufferMaterial_textures_eq]

/-- The orthographic frustum fields set by `OrthographicCamera.setOrthographic`. -/
structure OrthoFrustum where
  left : ℚ
  right : ℚ
  bottom : ℚ
  top : ℚ
  deriving DecidableEq

/-- Source: `OrthographicCamera.setOrthographic(width, height)` — if the
window is wider than tall, keep `width` and recompute
`height = width * (winH / winW)`; otherwise keep `height` and recompute
`width = height * (winW / winH)`; then halve both and set
`left/right/bottom/top` symmetrically. -/
def setOrthographic (winW winH width height : ℚ) : OrthoFrustum :=
  let p : ℚ × ℚ :=
    if winW > winH then (width, width * (winH / winW))
    else (height * (winW / winH), height)
  let w := p.1 * (1/2)
  let h := p.2 * (1/2)
  ⟨-w, w, -h, h⟩

/-- Claim C3 counterexample: on a 200×100 window (aspect > 1, so the shorter
screen dimension is the height) a request of width 50, height 80 yields a
frustum of height 25, not the requested 80 — the shorter screen dimension's
requested size is not preserved. -/
theorem setOrthographic_shorter_not_preserved :
    (200 : ℚ) > 100
    ∧ (setOrthographic 200 100 50 80).top - (setOrthographic 200 100 50 80).bottom = 25
    ∧ (25 : ℚ) ≠ 80 := by
  refine ⟨by norm_num, ?_, by norm_num⟩
  norm_num [setOrthographic]

/-- Claim C3 as amended: for every requested (width, height),
`setOrthographic` preserves the LONGER screen dimension's requested size
exactly and recomputes the shorter one from it by the viewport ratio, in
both aspect regimes, so the frustum's aspect ratio equals the viewport's
(the image is never non-uniformly stretched). -/
theorem setOrthographic_preserves_longer (winW winH width height : ℚ)
    (hW : 0 < winW) (hH : 0 < winH) :
    (winW > winH →
      (setOrthographic winW winH width height).right
          - (setOrthographic winW winH width height).left = width
      ∧ ((setOrthographic winW winH width height).top
          - (setOrthographic winW winH width height).bottom) * winW = width * winH)
    ∧ (¬ winW > winH →
      (setOrthographic winW winH width height).top
          - (setOrthographic winW winH width height).bottom = height
      ∧ ((setOrthographic winW winH width height).right
          - (setOrthographic winW winH width height).left) * winH = height * winW) := by
  constructor
  · intro hgt
    simp only [setOrthographic, if_pos hgt]
    constructor
    · ring
    · field_simp
      ring
  · intro hle
    simp only [setOrthographic, if_neg hle]
    constructor
    · ring
    · field_simp
      ring

/-- Witness for `setOrthographic_preserves_longer` at the concrete input
winW = 200, winH = 100, width = 50, height = 80. -/
theorem setOrthographic_preserves_longer_witness :
    ((200 : ℚ) > 100 →
      (setOrthographic 200 100 50 80).right - (setOrthographic 200 100 50 80).left = 50
      ∧ ((setOrthographic 200 100 50 80).top
          - (setOrthographic 200 100 50 80).bottom) * 200 = 50 * 100)
    ∧ (¬ (200 : ℚ) > 100 →
      (setOrthographic 200 100 50 80).top - (setOrthographic 200 100 50 80).bottom = 80
      ∧ ((setOrthographic 200 100 50 80).right
          - (setOrthographic 200 100 50 80).left) * 100 = 80 * 200) :=
  setOrthographic_preserves_longer 200 100 50 80 (by norm_num) (by norm_num)

/-- Source: class OrbitController — the state mutated by its input handlers.
Constructor defaults: pitch 0, pitchRot 0, pitchSpd 0.2, pitchMax 89, yaw 0,
yawRot 0, yawSpd 0.2, boomLength from the constructor argument. -/
structure OrbitController where
  pitch : ℚ
  pitchRot : ℚ
  pitchSpd : ℚ
  pitchMax : ℚ
  yaw : ℚ
  yawRot : ℚ
  yawSpd : ℚ
  boomLength : ℚ

/-- Source: `OrbitController.handleZoom(event)` —
`this.boomLength = Math.min(Math.max(80, this.boomLength + event.deltaY * 0.2), 500)`. -/
def OrbitController.handleZoom (s : OrbitController) (deltaY : ℚ) : OrbitController :=
  { s with boomLength := min (max 80 (s.boomLength + deltaY * (1/5))) 500 }

/-- Source: `OrbitController.handleRotate(vx, vy)` — pitch is clamped to
`[-pitchMax, pitchMax]` after adding `pitchSpd * (vy - yawRot)`, yaw is
advanced by `yawSpd * (vx - pitchRot)`, then the reference coordinates
`pitchRot`/`yawRot` are updated to the new sample. -/
def OrbitController.handleRotate (s : OrbitController) (vx vy : ℚ) : OrbitController :=
  { s with
    pitch := clamp (s.pitch + s.pitchSpd * (vy - s.yawRot)) (-s.pitchMax) s.pitchMax
    yaw := s.yaw + s.yawSpd * (vx - s.pitchRot)
    pitchRot := vx
    yawRot := vy }

/-- Source: `OrbitController.setRotations(pitch, yaw)` —
`this.pitch = clamp(pitch, -this.pitch, this.pitch); this.yaw = yaw;`.
Note the clamp bounds are the CURRENT pitch, not pitchMax. -/
def OrbitController.setRotations (s : OrbitController) (pitch yaw : ℚ) : OrbitController :=
  { s with pitch := clamp pitch (-s.pitch) s.pitch, yaw := yaw }

/-- One driving input: a `handleRotate(vx, vy)` call or a `handleZoom` call. -/
inductive OrbitEvent where
  | rotate (vx vy : ℚ)
  | zoom (deltaY : ℚ)

/-- Dispatch one input event to its handler. -/
def OrbitController.step (s : OrbitController) : OrbitEvent → OrbitController
  | OrbitEvent.rotate vx vy => s.handleRotate vx vy
  | OrbitEvent.zoom d => s.handleZoom d

/-- Run a sequence of input events through the controller. -/
def OrbitController.run (s : OrbitController) (es : List OrbitEvent) : OrbitController :=
  es.foldl OrbitController.step s

lemma OrbitController.step_pitchMax (s : OrbitController) (e : OrbitEvent) :
    (s.step e).pitchMax = s.pitchMax := by
  cases e <;> rfl

lemma OrbitController.step_bounds (s : OrbitController) (e : OrbitEvent)
    (hp1 : -s.pitchMax ≤ s.pitch) (hp2 : s.pitch ≤ s.pitchMax)
    (hb1 : 80 ≤ s.boomLength) (hb2 : s.boomLength ≤ 500) :
    -s.pitchMax ≤ (s.step e).pitch ∧ (s.step e).pitch ≤ s.pitchMax
    ∧ 80 ≤ (s.step e).boomLength ∧ (s.step e).boomLength ≤ 500 := by
  have hM : -s.pitchMax ≤ s.pitchMax := le_trans hp1 hp2
  cases e with
  | rotate vx vy =>
    refine ⟨?_, ?_, hb1, hb2⟩
    · simp only [OrbitController.step, OrbitController.handleRotate, clamp]
      exact le_min (le_max_right _ _) hM
    · simp only [OrbitController.step, OrbitController.handleRotate, clamp]
      exact min_le_right _ _
  | zoom d =>
    refine ⟨hp1, hp2, ?_, ?_⟩
    · simp only [OrbitController.step, OrbitController.handleZoom]
      exact le_min (le_max_left _ _) (by norm_num)
    · simp only [OrbitController.step, OrbitController.handleZoom]
      exact min_le_right _ _

/-- Claim C4: driving orbit-controller input never moves the camera past its
configured bounds — from any state with pitch in `[-pitchMax, pitchMax]` and
boomLength in `[80, 500]`, after any sequence of handleRotate / handleZoom
calls with arbitrary inputs, pitch is still in `[-pitchMax, pitchMax]` and
boomLength still in `[80, 500]`. -/
theorem orbit_controller_bounds (s : OrbitController) (es : List OrbitEvent)
    (hp1 : -s.pitchMax ≤ s.pitch) (hp2 : s.pitch ≤ s.pitchMax)
    (hb1 : 80 ≤ s.boomLength) (hb2 : s.boomLength ≤ 500) :
    -s.pitchMax ≤ (s.run es).pitch ∧ (s.run es).pitch ≤ s.pitchMax
    ∧ 80 ≤ (s.run es).boomLength ∧ (s.run es).boomLength ≤ 500 := by
  induction es generalizing s with
  | nil => exact ⟨hp1, hp2, hb1, hb2⟩
  | cons e es ih =>
    have hstep := OrbitController.step_bounds s e hp1 hp2 hb1 hb2
    have hmax := OrbitController.step_pitchMax s e
    have h := ih (s.step e) (hmax ▸ hstep.1) (hmax ▸ hstep.2.1) hstep.2.2.1 hstep.2.2.2
    simpa [OrbitController.run, hmax] using h

/-- Witness for `orbit_controller_bounds`: a concrete controller at the
constructor defaults with boom length 300, driven by one rotate far past the
pitch bound and one large zoom. -/
theorem orbit_controller_bounds_witness :
    -(89 : ℚ) ≤ (OrbitController.run ⟨0, 0, 1/5, 89, 0, 0, 1/5, 300⟩
        [OrbitEvent.rotate 0 10000, OrbitEvent.zoom 100000]).pitch
    ∧ (OrbitController.run ⟨0, 0, 1/5, 89, 0, 0, 1/5, 300⟩
        [OrbitEvent.rotate 0 10000, OrbitEvent.zoom 100000]).pitch ≤ 89
    ∧ 80 ≤ (OrbitController.run ⟨0, 0, 1/5, 89, 0, 0, 1/5, 300⟩
        [OrbitEvent.rotate 0 10000, OrbitEvent.zoom 100000]).boomLength
    ∧ (OrbitController.run ⟨0, 0, 1/5, 89, 0, 0, 1/5, 300⟩
        [OrbitEvent.rotate 0 10000, OrbitEvent.zoom 100000]).boomLength ≤ 500 :=
  orbit_controller_bounds ⟨0, 0, 1/5, 89, 0, 0, 1/5, 300⟩
    [OrbitEvent.rotate 0 10000, OrbitEvent.zoom 100000]
    (by norm_num) (by norm_num) (by norm_num) (by norm_num)

/-- Claim C9: `setRotations` sets yaw unconditionally but clamps the new
pitch to the interval bounded by the CURRENT pitch value
(`[-this.pitch, this.pitch]`), not by `pitchMax`: the result does not depend
on `pitchMax`; when the current pitch is nonnegative the result stays within
`[-pitch, pitch]`; and when the current pitch is 0 the pitch stays 0 for
every argument. -/
theorem setRotations_clamped_by_current_pitch (s : OrbitController) (p y : ℚ) :
    (s.setRotations p y).yaw = y
    ∧ (s.setRotations p y).pitch = clamp p (-s.pitch) s.pitch
    ∧ (∀ m : ℚ, ({ s with pitchMax := m }.setRotations p y).pitch
        = (s.setRotations p y).pitch)
    ∧ (0 ≤ s.pitch → -s.pitch ≤ (s.setRotations p y).pitch
        ∧ (s.setRotations p y).pitch ≤ s.pitch)
    ∧ (s.pitch = 0 → (s.setRotations p y).pitch = 0) := by
  refine ⟨rfl, rfl, fun m => rfl, ?_, ?_⟩
  · intro h
    constructor
    · exact le_min (le_max_right _ _) (le_trans (neg_nonpos_of_nonneg h) h)
    · exact min_le_right _ _
  · intro h
    simp [OrbitController.setRotations, clamp, h]

/-- Witness for `setRotations_clamped_by_current_pitch` at a concrete
controller with current pitch 0: `setRotations 45 7` leaves pitch at 0 and
sets yaw to 7. -/
theorem setRotations_clamped_witness :
    ((⟨0, 0, 1/5, 89, 0, 0, 1/5, 300⟩ : OrbitController).setRotations 45 7).yaw = 7
    ∧ ((⟨0, 0, 1/5, 89, 0, 0, 1/5, 300⟩ : OrbitController).setRotations 45 7).pitch = 0 :=
  ⟨(setRotations_clamped_by_current_pitch ⟨0, 0, 1/5, 89, 0, 0, 1/5, 300⟩ 45 7).1,
   (setRotations_clamped_by_current_pitch ⟨0, 0, 1/5, 89, 0, 0, 1/5, 300⟩ 45 7).2.2.2.2 rfl⟩

/-- A GPU command, one per WebGL call issued by the mesh loop of
`Renderer.renderScene` and the bind/draw paths it reaches. -/
inductive GLCmd where
  | bindElementBuffer (role : String)
  | bindArrayBuffer (role : String)
  | vertexAttribPointer (role : String)
  | enableVertexAttribArray (role : String)
  | useProgram (shader : String)
  | uniformMatrix4fv (uniform : String)
  | uniform3fv (uniform : String)
  | activeTexture (slot : ℕ)
  | bindTexture (tex : String)
  | uniform1i (uniform : String) (slot : ℕ)
  | drawArrays (mesh : String)
  deriving DecidableEq

/-- Source: class GLShader — identified by name, with the resolved attribute
locations table (`-1` models a location the lookup did not find). -/
structure GLShaderRec where
  name : String
  locations : List (String × Int)

/-- Source: `GLShader.bind(buffers)` — for each buffer role: the `index`
role binds as an element buffer; otherwise the role's location is looked up
and, unless it equals -1, the array buffer is bound and the attribute
pointer enabled; finally the program is activated. -/
def GLShaderRec.bindTrace (sh : GLShaderRec) (bufferRoles : List String) : List GLCmd :=
  (bufferRoles.flatMap (fun b =>
    if b = "index" then [GLCmd.bindElementBuffer b]
    else if jsGet sh.locations b = some (-1) then []
    else [GLCmd.bindArrayBuffer b, GLCmd.vertexAttribPointer b,
      GLCmd.enableVertexAttribArray b]))
  ++ [GLCmd.useProgram sh.name]

/-- Source: `Material.bind(shader)` — binds each texture of the dictionary
to consecutive texture slots and sets the matching sampler uniform. -/
def Material.bindTrace (m : Material) : List GLCmd :=
  (m.textures.enum.flatMap (fun p =>
    [GLCmd.activeTexture p.1, GLCmd.bindTexture p.2.2, GLCmd.uniform1i p.2.1 p.1]))

/-- Source: class MeshInstance — a mesh (its buffer roles), shader, material,
transform state and visibility flag. -/
structure MeshInstanceRec where
  name : String
  shader : GLShaderRec
  material : Material
  bufferRoles : List String
  position : Vec3
  scale : Vec3
  visible : Bool

/-- Source: `MeshInstance.bind(attributes)` — computes the model and
model-view matrices (pure local computation), then `shader.bind(buffers)`,
`shader.setMatrices(...)` (three matrix uniforms),
`shader.setUniformFloat3(..., cameraPosition)`, and `material.bind(shader)`. -/
def MeshInstanceRec.bindTrace (m : MeshInstanceRec) : List GLCmd :=
  m.shader.bindTrace m.bufferRoles
  ++ [GLCmd.uniformMatrix4fv "projection", GLCmd.uniformMatrix4fv "model",
      GLCmd.uniformMatrix4fv "modelView", GLCmd.uniform3fv "cameraPosition"]
  ++ m.material.bindTrace

/-- Source: the geometry-pass mesh loop of `Renderer.renderScene`:
`if (!mesh.visible) continue; mesh.bind(att); mesh.draw();`.
The fold threads both the mesh list (no statement of the loop assigns to a
mesh instance field, so each instance passes through unchanged) and the
emitted GPU command trace. -/
def geometryPassStep (acc : List MeshInstanceRec × List GLCmd)
    (mi : MeshInstanceRec) : List MeshInstanceRec × List GLCmd :=
  if mi.visible then
    (acc.1 ++ [mi], acc.2 ++ mi.bindTrace ++ [GLCmd.drawArrays mi.name])
  else
    (acc.1 ++ [mi], acc.2)

/-- The whole geometry-pass mesh loop: fold `geometryPassStep` over the
scene's meshes starting from an unchanged-mesh list and an empty trace. -/
def geometryPass (meshes : List MeshInstanceRec) : List MeshInstanceRec × List GLCmd :=
  meshes.foldl geometryPassStep ([], [])

lemma geometryPass_fold_eq (meshes : List MeshInstanceRec)
    (acc : List MeshInstanceRec × List GLCmd) :
    meshes.foldl geometryPassStep acc =
    (acc.1 ++ meshes,
     acc.2 ++ (meshes.filter (fun mi => mi.visible)).flatMap
        (fun mi => mi.bindTrace ++ [GLCmd.drawArrays mi.name])) := by
  induction meshes generalizing acc with
  | nil => simp
  | cons m rest ih =>
    rw [List.foldl_cons, ih]
    by_cases h : m.visible
    · simp [geometryPassStep, h, List.append_assoc]
    · simp [geometryPassStep, h]

/-- Claim C5: a mesh instance with `visible = false` contributes zero draw
calls and zero GPU state changes to the frame — the geometry pass emits
exactly the trace it would emit were the instance absent, the instance is
skipped before any bind, and the pass leaves every instance's own state
(including the skipped one) unchanged. -/
theorem invisible_mesh_contributes_nothing (pre post : List MeshInstanceRec)
    (m : MeshInstanceRec) (h : m.visible = false) :
    (geometryPass (pre ++ m :: post)).2 = (geometryPass (pre ++ post)).2
    ∧ (geometryPass (pre ++ m :: post)).1 = pre ++ m :: post := by
  constructor
  · simp [geometryPass, geometryPass_fold_eq, geometryPassStep, h]
  · simp [geometryPass, geometryPass_fold_eq, geometryPassStep, h]

/-- Witness for `invisible_mesh_contributes_nothing`: a concrete scene of
one visible and one invisible instance. -/
theorem invisible_mesh_witness :
    (geometryPass
      [⟨"cube", ⟨"gbuffer", [("position", 0)]⟩, ⟨[("albedo", "a")]⟩, ["position"],
          (0, 0, 0), (1, 1, 1), true⟩,
       ⟨"sphere", ⟨"gbuffer", [("position", 0)]⟩, ⟨[("albedo", "a")]⟩, ["position"],
          (0, 0, 0), (1, 1, 1), false⟩]).2
    = (geometryPass
      [⟨"cube", ⟨"gbuffer", [("position", 0)]⟩, ⟨[("albedo", "a")]⟩, ["position"],
          (0, 0, 0), (1, 1, 1), true⟩]).2 :=
  (invisible_mesh_contributes_nothing
    [⟨"cube", ⟨"gbuffer", [("position", 0)]⟩, ⟨[("albedo", "a")]⟩, ["position"],
        (0, 0, 0), (1, 1, 1), true⟩] []
    ⟨"sphere", ⟨"gbuffer", [("position", 0)]⟩, ⟨[("albedo", "a")]⟩, ["position"],
        (0, 0, 0), (1, 1, 1), false⟩ rfl).1

/-- The GPU-resident allocations touched by `Renderer.onWindowResize`:
the canvas/viewport size, the depth renderbuffer's storage dimensions and
each G-Buffer texture's backing dimensions (keyed as in the material
dictionary). -/
structure RendererSize where
  isInit : Bool
  canvasW : ℕ
  canvasH : ℕ
  viewportW : ℕ
  viewportH : ℕ
  depthW : ℕ
  depthH : ℕ
  texDims : List (String × (ℕ × ℕ))
  deriving DecidableEq

/-- Source: `Renderer.onWindowResize` — resize the canvas and viewport to
the window size; if the renderer has finished construction, also reallocate
the depth renderbuffer storage at (w, h) and re-issue `texImage2D` at (w, h)
for every texture of the G-Buffer material. -/
def onWindowResize (s : RendererSize) (w h : ℕ) : RendererSize :=
  let s1 := { s with canvasW := w, canvasH := h, viewportW := w, viewportH := h }
  if s.isInit = false then s1
  else { s1 with
    depthW := w, depthH := h,
    texDims := s.texDims.map (fun p => (p.1, (w, h))) }

/-- Claim C6: the resize path is idempotent — resizing to (W, H) and then
immediately to (W, H) again produces exactly the state of a single resize,
and (for an initialized renderer) that state has the depth renderbuffer and
every G-Buffer attachment texture backed at (W, H). -/
theorem onWindowResize_idempotent (s : RendererSize) (w h : ℕ)
    (hinit : s.isInit = true) :
    onWindowResize (onWindowResize s w h) w h = onWindowResize s w h
    ∧ (onWindowResize s w h).depthW = w ∧ (onWindowResize s w h).depthH = h
    ∧ (onWindowResize s w h).texDims = s.texDims.map (fun p => (p.1, (w, h))) := by
  refine ⟨?_, ?_, ?_, ?_⟩ <;>
    simp [onWindowResize, hinit, List.map_map, Function.comp]

/-- Witness for `onWindowResize_idempotent`: a concrete initialized renderer
state resized twice to 1024×768. -/
theorem onWindowResize_idempotent_witness :
    onWindowResize (onWindowResize
        ⟨true, 640, 480, 640, 480, 640, 480,
         [("albedo", (640, 480)), ("normal", (640, 480)),
          ("material", (640, 480)), ("base", (640, 480)),
          ("position", (640, 480))]⟩ 1024 768) 1024 768
      = onWindowResize
        ⟨true, 640, 480, 640, 480, 640, 480,
         [("albedo", (640, 480)), ("normal", (640, 480)),
          ("material", (640, 480)), ("base", (640, 480)),
          ("position", (640, 480))]⟩ 1024 768 :=
  (onWindowResize_idempotent
    ⟨true, 640, 480, 640, 480, 640, 480,
     [("albedo", (640, 480)), ("normal", (640, 480)),
      ("material", (640, 480)), ("base", (640, 480)),
      ("position", (640, 480))]⟩ 1024 768 rfl).1

/-- Source: the first `translateX(x)` declaration of MeshInstance
(`this.position[0] += x`), shadowed by the later declaration of the same
name. -/
def translateX_first_decl (p : Vec3) (x : ℚ) : Vec3 := (p.1 + x, p.2.1, p.2.2)

/-- Source: `MeshInstance.translateY(y)` — `this.position[1] += y`. -/
def translateY_decl (p : Vec3) (y : ℚ) : Vec3 := (p.1, p.2.1 + y, p.2.2)

/-- Source: the second `translateX(z)` declaration of MeshInstance
(`this.position[2] += z`) — being later in the class body, it is the one the
name resolves to. -/
def translateX_second_decl (p : Vec3) (z : ℚ) : Vec3 := (p.1, p.2.1, p.2.2 + z)

/-- The single-axis translation methods of the MeshInstance class body, in
declaration order, installed with JS property semantics (a later definition
of the same name overwrites the earlier one in place).  The three-argument
`translate(x, y, z)` method is a separate declaration and is modelled by
`MeshInstance_translate` below. -/
def meshAxisTranslations : List (String × (Vec3 → ℚ → Vec3)) :=
  jsSet (jsSet (jsSet [] "translateX" translateX_first_decl)
    "translateY" translateY_decl) "translateX" translateX_second_decl

/-- Source: `MeshInstance.translate(x, y, z)` — adds to all three position
components. -/
def MeshInstance_translate (p : Vec3) (x y z : ℚ) : Vec3 :=
  (p.1 + x, p.2.1 + y, p.2.2 + z)

lemma meshAxisTranslations_eq :
    meshAxisTranslations =
      [("translateX", translateX_second_decl), ("translateY", translateY_decl)] := by
  rfl

/-- Claim C10: because MeshInstance declares `translateX` twice and the
later declaration shadows the earlier, `translateX(d)` adds `d` to
`position[2]` and leaves `position[0]` and `position[1]` unchanged; no
single-axis translation method of the class adds to the x component; and no
`translateZ` method exists. -/
theorem translateX_shadowed_adds_z (v : Vec3) (d : ℚ) :
    jsGet meshAxisTranslations "translateX" = some translateX_second_decl
    ∧ translateX_second_decl v d = (v.1, v.2.1, v.2.2 + d)
    ∧ jsGet meshAxisTranslations "translateZ" = none
    ∧ (∀ e ∈ meshAxisTranslations, (e.2 v d).1 = v.1) := by
  refine ⟨rfl, rfl, rfl, ?_⟩
  intro e he
  rw [meshAxisTranslations_eq] at he
  simp only [List.mem_cons, List.not_mem_nil, or_false] at he
  rcases he with rfl | rfl <;> rfl

/-- Witness for `translateX_shadowed_adds_z` at the concrete position
(1, 2, 3) with d = 10. -/
theorem translateX_shadowed_witness :
    translateX_second_decl (1, 2, 3) 10 = (1, 2, 13)
    ∧ (translateY_decl (1, 2, 3) 10).1 = 1 := by
  constructor
  · have hc := (translateX_shadowed_adds_z (1, 2, 3) 10).2.1
    norm_num at hc
    exact hc
  · exact (translateX_shadowed_adds_z (1, 2, 3) 10).2.2.2 ("translateY", translateY_decl)
      (by rw [meshAxisTranslations_eq]
          exact List.mem_cons_of_mem _ (List.mem_singleton.mpr rfl))

/-- One `position/uv/normal` index triple of an OBJ face line (1-based
indices, as produced by splitting the face token on `/`). -/
structure FaceVert where
  v : ℕ
  t : ℕ
  n : ℕ
  deriving DecidableEq

/-- A triangulated OBJ face: three index triples A, B, C. -/
structure ObjFace where
  A : FaceVert
  B : FaceVert
  C : FaceVert
  deriving DecidableEq

/-- One classified line of the OBJ text, as recognized by the first loop
of `loadOBJ` (`v`, `vn`, `vt`, `f` records; blank lines and `#` comments
and any unrecognized line fall through with no effect). -/
inductive ObjLine where
  | vert (x y z : ℚ)
  | norm (x y z : ℚ)
  | uvl (u v : ℚ)
  | face (f : ObjFace)
  | comment
  deriving DecidableEq

/-- Whether a line is a face record. -/
def isFaceLine : ObjLine → Bool
  | ObjLine.face _ => true
  | _ => false

/-- The parse state of the first `loadOBJ` loop.  The data lists start with
one sentinel entry (`[[0,0,0]]`, `[[0,0]]`, `[[0,0,0]]`) so that the OBJ
file's 1-based indices address them directly. -/
structure ObjData where
  vertexData : List Vec3
  uvData : List (ℚ × ℚ)
  normalData : List Vec3
  faces : List ObjFace
  polyCount : ℕ

/-- One iteration of the first `loadOBJ` loop: push the record's numbers
onto the matching data list; a face line is collected and bumps `polyCount`. -/
def parseStep (st : ObjData) : ObjLine → ObjData
  | ObjLine.vert x y z => { st with vertexData := st.vertexData ++ [(x, y, z)] }
  | ObjLine.norm x y z => { st with normalData := st.normalData ++ [(x, y, z)] }
  | ObjLine.uvl u v => { st with uvData := st.uvData ++ [(u, v)] }
  | ObjLine.face f => { st with faces := st.faces ++ [f], polyCount := st.polyCount + 1 }
  | ObjLine.comment => st

/-- The whole first `loadOBJ` loop, from the initial sentinel state. -/
def parseOBJ (lines : List ObjLine) : ObjData :=
  lines.foldl parseStep ⟨[(0, 0, 0)], [(0, 0)], [(0, 0, 0)], [], 0⟩

/-- Source: the tangent computation of the second `loadOBJ` loop — resolve
the face's vertex and UV data, form the two triangle edges and UV deltas,
and combine them by `inv = 1 / (uv1.x*uv2.y - uv2.x*uv1.y)`.  (Rational
division by zero yields 0 where JS would yield an infinity; the claims
proved below do not depend on the numeric value.) -/
def faceTangent (st : ObjData) (f : ObjFace) : Vec3 :=
  let v0 := st.vertexData.getD f.A.v (0, 0, 0)
  let v1 := st.vertexData.getD f.B.v (0, 0, 0)
  let v2 := st.vertexData.getD f.C.v (0, 0, 0)
  let u0 := st.uvData.getD f.A.t (0, 0)
  let u1 := st.uvData.getD f.B.t (0, 0)
  let u2 := st.uvData.getD f.C.t (0, 0)
  let edge1 : Vec3 := (v1.1 - v0.1, v1.2.1 - v0.2.1, v1.2.2 - v0.2.2)
  let edge2 : Vec3 := (v2.1 - v0.1, v2.2.1 - v0.2.1, v2.2.2 - v0.2.2)
  let uv1 : ℚ × ℚ := (u1.1 - u0.1, u1.2 - u0.2)
  let uv2 : ℚ × ℚ := (u2.1 - u0.1, u2.2 - u0.2)
  let inv := 1 / (uv1.1 * uv2.2 - uv2.1 * uv1.2)
  (inv * (uv2.2 * edge1.1 - uv1.2 * edge2.1),
   inv * (uv2.2 * edge1.2.1 - uv1.2 * edge2.2.1),
   inv * (uv2.2 * edge1.2.2 - uv1.2 * edge2.2.2))

/-- The nine position numbers a face pushes (`...v0, ...v1, ...v2`). -/
def facePositions (st : ObjData) (f : ObjFace) : List ℚ :=
  vec3ToList (st.vertexData.getD f.A.v (0, 0, 0))
  ++ vec3ToList (st.vertexData.getD f.B.v (0, 0, 0))
  ++ vec3ToList (st.vertexData.getD f.C.v (0, 0, 0))

/-- The six UV numbers a face pushes (`...u0, ...u1, ...u2`). -/
def faceUVs (st : ObjData) (f : ObjFace) : List ℚ :=
  let u0 := st.uvData.getD f.A.t (0, 0)
  let u1 := st.uvData.getD f.B.t (0, 0)
  let u2 := st.uvData.getD f.C.t (0, 0)
  [u0.1, u0.2, u1.1, u1.2, u2.1, u2.2]

/-- The nine normal numbers a face pushes (`...n0, ...n1, ...n2`). -/
def faceNormals (st : ObjData) (f : ObjFace) : List ℚ :=
  vec3ToList (st.normalData.getD f.A.n (0, 0, 0))
  ++ vec3ToList (st.normalData.getD f.B.n (0, 0, 0))
  ++ vec3ToList (st.normalData.getD f.C.n (0, 0, 0))

/-- The four output arrays accumulated by the second `loadOBJ` loop. -/
structure VertexArrays where
  position : List ℚ
  normal : List ℚ
  uv : List ℚ
  tangent : List ℚ

/-- One iteration of the second `loadOBJ` loop: push the face's resolved
position, uv and normal data, then run `for (let n = 0; n < 3; n++)`
pushing the per-triangle tangent once per vertex of the triangle. -/
def buildStep (st : ObjData) (r : VertexArrays) (f : ObjFace) : VertexArrays :=
  { position := r.position ++ facePositions st f
    uv := r.uv ++ faceUVs st f
    normal := r.normal ++ faceNormals st f
    tangent := r.tangent ++
      (List.range 3).foldl (fun acc _ => acc ++ vec3ToList (faceTangent st f)) [] }

/-- The result record returned by `loadOBJ`. -/
structure OBJResult where
  position : List ℚ
  normal : List ℚ
  uv : List ℚ
  tangent : List ℚ
  count : ℕ

/-- Source: `loadOBJ` — the first loop classifies and collects the records,
the second loop builds the four flat arrays from the collected faces, and
the result carries the four arrays plus the face-line count. -/
def loadOBJ (lines : List ObjLine) : OBJResult :=
  let st := parseOBJ lines
  let r := st.faces.foldl (buildStep st) ⟨[], [], [], []⟩
  ⟨r.position, r.normal, r.uv, r.tangent, st.polyCount⟩

lemma range3_push (l : List ℚ) :
    (List.range 3).foldl (fun acc _ => acc ++ l) [] = l ++ l ++ l := by
  simp [List.range_succ]

lemma parse_fold_counts (lines : List ObjLine) (st : ObjData) :
    (lines.foldl parseStep st).polyCount = st.polyCount + lines.countP isFaceLine
    ∧ (lines.foldl parseStep st).faces.length
        = st.faces.length + lines.countP isFaceLine := by
  induction lines generalizing st with
  | nil => simp
  | cons line rest ih =>
    cases line <;> simp [parseStep, isFaceLine, List.countP_cons, ih]
    omega

lemma build_fold_eq (st : ObjData) (fs : List ObjFace) (acc : VertexArrays) :
    fs.foldl (buildStep st) acc =
      ⟨acc.position ++ fs.flatMap (facePositions st),
       acc.normal ++ fs.flatMap (faceNormals st),
       acc.uv ++ fs.flatMap (faceUVs st),
       acc.tangent ++ fs.flatMap (fun f =>
         vec3ToList (faceTangent st f) ++ vec3ToList (faceTangent st f)
           ++ vec3ToList (faceTangent st f))⟩ := by
  induction fs generalizing acc with
  | nil => simp
  | cons f rest ih =>
    rw [List.foldl_cons, ih]
    simp [buildStep, range3_push, List.append_assoc]

lemma flatMap_const_length {α : Type} (fs : List α) (g : α → List ℚ) (k : ℕ)
    (h : ∀ f, (g f).length = k) : (fs.flatMap g).length = k * fs.length := by
  induction fs with
  | nil => simp
  | cons f rest ih =>
    simp [List.flatMap_cons, h, ih]
    ring

/-- Claim C8: `loadOBJ` returns four parallel flat arrays — per face, 9
position numbers, 9 normal numbers, 6 uv numbers and 9 tangent numbers (one
entry per face vertex) — plus a count equal to the number of face lines, and
each face's per-triangle tangent is pushed identically (duplicated, not
averaged) for all three of that triangle's vertices, so vertices shared
across triangles receive independent per-face tangents. -/
theorem loadOBJ_parallel_arrays (lines : List ObjLine) :
    (loadOBJ lines).count = lines.countP isFaceLine
    ∧ (loadOBJ lines).position.length = 9 * (loadOBJ lines).count
    ∧ (loadOBJ lines).normal.length = 9 * (loadOBJ lines).count
    ∧ (loadOBJ lines).uv.length = 6 * (loadOBJ lines).count
    ∧ (loadOBJ lines).tangent.length = 9 * (loadOBJ lines).count
    ∧ (loadOBJ lines).tangent = (parseOBJ lines).faces.flatMap (fun f =>
        vec3ToList (faceTangent (parseOBJ lines) f)
          ++ vec3ToList (faceTangent (parseOBJ lines) f)
          ++ vec3ToList (faceTangent (parseOBJ lines) f)) := by
  have hparse := parse_fold_counts lines ⟨[(0, 0, 0)], [(0, 0)], [(0, 0, 0)], [], 0⟩
  have hfaces : (parseOBJ lines).faces.length = lines.countP isFaceLine := by
    simpa [parseOBJ] using hparse.2
  have hcount : (parseOBJ lines).polyCount = lines.countP isFaceLine := by
    simpa [parseOBJ] using hparse.1
  have hbuild := build_fold_eq (parseOBJ lines) (parseOBJ lines).faces ⟨[], [], [], []⟩
  refine ⟨?_, ?_, ?_, ?_, ?_, ?_⟩
  · simpa [loadOBJ] using hcount
  · simp only [loadOBJ, hbuild, List.nil_append]
    rw [flatMap_const_length _ _ 9 (fun f => by simp [facePositions, vec3ToList])]
    simp [hfaces, hcount]
  · simp only [loadOBJ, hbuild, List.nil_append]
    rw [flatMap_const_length _ _ 9 (fun f => by simp [faceNormals, vec3ToList])]
    simp [hfaces, hcount]
  · simp only [loadOBJ, hbuild, List.nil_append]
    rw [flatMap_const_length _ _ 6 (fun f => by simp [faceUVs])]
    simp [hfaces, hcount]
  · simp only [loadOBJ, hbuild, List.nil_append]
    rw [flatMap_const_length _ _ 9 (fun f => by simp [vec3ToList])]
    simp [hfaces, hcount]
  · simp only [loadOBJ, hbuild, List.nil_append]
